import Mathlib

/-!
Verification of `orttraining/orttraining/python/training/ortmodule/_graph_execution_manager.py`.

The development shallowly embeds the data model and operations of
`GraphExecutionManager` and the `_SkipCheck` policy bitmask:

* `_SkipCheck` (an `IntFlag`) becomes a `Nat` bitmask; `is_set`/`is_disabled`
  follow the Python `IntFlag` semantics (`check in self` holds iff every bit of
  `check` is present in `self`).
* The export-cache state machine of `_export_model` / `_get_exported_model` /
  `_set_device_from_module` becomes an explicit state-passing function over
  `ManagerState`, parameterised by an `ExportEnv` describing the behaviour of
  the external collaborators (the PyTorch exporter, the device-resolution
  helpers in `_utils`, and the exporter's effect on the process-wide random
  state).
* `_initialize_graph_builder` and `_enable_conditional_optimizations` become
  pure functions on the parameter lists / sparsity results they consume.
-/

namespace OrtModule

/-! ## `_SkipCheck` — the skip-check policy bitmask -/

/-- `_SkipCheck.SKIP_CHECK_DISABLED = 1`. -/
def SKIP_CHECK_DISABLED : Nat := 1

/-- `_SkipCheck.SKIP_CHECK_DEVICE = 2`. -/
def SKIP_CHECK_DEVICE : Nat := 2

/-- `_SkipCheck.SKIP_CHECK_BUILD_GRADIENT = 4`. -/
def SKIP_CHECK_BUILD_GRADIENT : Nat := 4

/-- `_SkipCheck.SKIP_CHECK_EXECUTION_AGENT = 8`. -/
def SKIP_CHECK_EXECUTION_AGENT : Nat := 8

/-- `_SkipCheck.is_disabled`: whether `SKIP_CHECK_DISABLED in self`.
Python `IntFlag` containment `c in s` holds iff `s.value & c.value == c.value`. -/
def is_disabled (s : Nat) : Bool := SKIP_CHECK_DISABLED &&& s == SKIP_CHECK_DISABLED

/-- `_SkipCheck.is_set`: `not _SkipCheck.is_disabled(self) and check in self`. -/
def is_set (s check : Nat) : Bool := !is_disabled s && (check &&& s == check)

/-- `GraphExecutionManager.__init__`'s default skip-check policy:
`SKIP_CHECK_DEVICE | SKIP_CHECK_BUILD_GRADIENT | SKIP_CHECK_EXECUTION_AGENT`. -/
def default_skip_check : Nat :=
  SKIP_CHECK_DEVICE ||| SKIP_CHECK_BUILD_GRADIENT ||| SKIP_CHECK_EXECUTION_AGENT

/-- `GraphExecutionManager.__init__`'s skip-check initialisation: the default
mask when `ORTMODULE_SKIPCHECK_POLICY` is unset, otherwise the fold of `|` over
the (nonempty, as `functools.reduce` demands) list of parsed flag values. -/
def init_skip_check : Option (Nat × List Nat) → Nat
  | none => default_skip_check
  | some (f, rest) => rest.foldl (· ||| ·) f

/-! Helper lemmas about the bitmask. -/

theorem is_disabled_eq_testBit (s : Nat) : is_disabled s = s.testBit 0 := by
  unfold is_disabled SKIP_CHECK_DISABLED
  rcases Nat.even_or_odd s with h | h
  · have h2 : s % 2 = 0 := Nat.even_iff.mp h
    simp [Nat.testBit_zero, Nat.one_and_eq_mod_two, h2]
  · have h2 : s % 2 = 1 := Nat.odd_iff.mp h
    simp [Nat.testBit_zero, Nat.one_and_eq_mod_two, h2]

theorem and_eq_left_iff_subset (c s : Nat) :
    c &&& s = c ↔ ∀ i, c.testBit i = true → s.testBit i = true := by
  constructor
  · intro h i hc
    have ht := congrArg (fun n => n.testBit i) h
    simp only [Nat.testBit_and] at ht
    rw [hc] at ht
    simpa using ht
  · intro h
    apply Nat.eq_of_testBit_eq
    intro i
    simp only [Nat.testBit_and]
    cases hc : c.testBit i
    · simp
    · simp [h i hc]

/-- C1: if the disabled-override bit (bit 0, `SKIP_CHECK_DISABLED`) is present
in the policy `s`, then `is_set s c` is false for every check value `c`,
including values combining several bits; otherwise `is_set s c` is true exactly
when every bit of `c` is present in `s`. -/
theorem skip_check_is_set_spec (s c : Nat) :
    (s.testBit 0 = true → is_set s c = false) ∧
    (s.testBit 0 = false →
      (is_set s c = true ↔ ∀ i, c.testBit i = true → s.testBit i = true)) := by
  constructor
  · intro h
    unfold is_set
    rw [is_disabled_eq_testBit, h]
    simp
  · intro h
    unfold is_set
    rw [is_disabled_eq_testBit, h]
    simp [and_eq_left_iff_subset]

/-- Witness for C1 at concrete inputs: with the disabled bit present
(`s = 3`) the device check is reported unset, and without it (`s = 6`) the
device check is reported set. -/
theorem skip_check_is_set_spec_witness :
    is_set 3 SKIP_CHECK_DEVICE = false ∧ is_set 6 SKIP_CHECK_DEVICE = true := by
  constructor
  · exact (skip_check_is_set_spec 3 SKIP_CHECK_DEVICE).1 (by decide)
  · exact ((skip_check_is_set_spec 6 SKIP_CHECK_DEVICE).2 (by decide)).mpr
      ((and_eq_left_iff_subset SKIP_CHECK_DEVICE 6).mp (by decide))

/-- C10: with `ORTMODULE_SKIPCHECK_POLICY` unset, the policy defaults to the
union of the device-check, gradient-graph-check and agent-reuse-check bits, the
disabled-override bit is unset, and `is_set` is true for each of the three
checks. -/
theorem default_skip_check_policy_spec :
    init_skip_check none =
      (SKIP_CHECK_DEVICE ||| SKIP_CHECK_BUILD_GRADIENT ||| SKIP_CHECK_EXECUTION_AGENT) ∧
    (init_skip_check none).testBit 0 = false ∧
    is_set (init_skip_check none) SKIP_CHECK_DEVICE = true ∧
    is_set (init_skip_check none) SKIP_CHECK_BUILD_GRADIENT = true ∧
    is_set (init_skip_check none) SKIP_CHECK_EXECUTION_AGENT = true := by
  refine ⟨rfl, by decide, by decide, by decide, by decide⟩

/-! ## The export-cache state machine of `GraphExecutionManager` -/

/-- A `torch.device`: a device type string plus an index. -/
inductive DeviceType
  | cuda
  | cpu
  | ort
  | other
deriving DecidableEq

/-- A resolved device, as compared by `_set_device_from_module`. -/
structure Device where
  type : DeviceType
  index : Nat
deriving DecidableEq

/-- The manager state that `_export_model` reads and writes: the cached
exported model (`self._onnx_models.exported_model`), the schema stored in
`self._input_info`, the change signal (`self._original_model_has_changed`),
the resolved device (`self._device`), and the process-wide pseudo-random state
that `_utils.get_random_states` / `_utils.set_random_states` snapshot and
restore. Exported models and schemas are abstracted to opaque `Nat` ids
compared by value, matching `schema == self._input_info.schema`. -/
structure ManagerState where
  exported_model : Option Nat
  input_info_schema : Option Nat
  original_model_has_changed : Bool
  device : Option Device
  rng : Nat
deriving DecidableEq

/-- The external collaborators of one `_export_model` call:
`_utils.get_device_from_module` / `_utils.get_device_from_inputs`, the
outcome of `torch.onnx.export` (success with a model, or an exception with a
diagnostic message), and the exporter's perturbation of the process-wide
pseudo-random state (running the model for output parsing, `torch.onnx.export`
itself and `SymbolicShapeInference` may all advance it). -/
structure ExportEnv where
  module_device : Option Device
  input_device : Option Device
  exporter_ok : Bool
  exporter_error_msg : String
  exported : Nat
  rng_perturb : Nat → Nat

/-- Errors surfaced by `_export_model`, paired below with the manager state
left behind when they are raised. -/
inductive OrtError
  | deviceError
  | exportError (msg : String)
deriving DecidableEq

/-- The message prefix of the `RuntimeError` wrapped into
`ORTModuleONNXModelException` by `_get_exported_model`. -/
def export_error_head : String :=
  "There was an error while exporting the PyTorch model to ONNX: "

/-- `device = get_device_from_module(module) or get_device_from_inputs(...)`. -/
def get_device (env : ExportEnv) : Option Device :=
  match env.module_device with
  | some d => some d
  | none => env.input_device

/-- `_set_device_from_module`: resolve the device; on a change (or when no
device was held) store it, and raise `ORTModuleDeviceException` when the
resolved device is `None`. The state is mutated before the raise, as in the
source. -/
def set_device_from_module (env : ExportEnv) (s : ManagerState) :
    Except (OrtError × ManagerState) ManagerState :=
  let device := get_device env
  if s.device.isNone || s.device != device then
    let s1 := { s with device := device }
    if device.isNone then .error (.deviceError, s1) else .ok s1
  else
    .ok s

/-- Modelled from the spec: `_io.parse_inputs_for_onnx_export` (module `_io`
is not among the sources; only its call site is). The spec's ExportCache
compares the next call's schema against the schema last recorded in the input
info, so the input info built here records the schema it is given. -/
def parse_inputs_for_onnx_export (schema : Nat) : Nat := schema

/-- `_get_exported_model`: builds `self._input_info` (recording the call's
schema) and parses outputs *before* invoking `torch.onnx.export`; the exporter
run perturbs the process-wide random state and either produces a model or
raises, in which case the exception is wrapped into a single
`ORTModuleONNXModelException` carrying the original diagnostic text. -/
def get_exported_model (env : ExportEnv) (schema : Nat) (s : ManagerState) :
    Except (OrtError × ManagerState) (Nat × ManagerState) :=
  let s1 := { s with input_info_schema := some (parse_inputs_for_onnx_export schema) }
  let s2 := { s1 with rng := env.rng_perturb s1.rng }
  if env.exporter_ok then
    .ok (env.exported, s2)
  else
    .error (.exportError (export_error_head ++ env.exporter_error_msg), s2)

/-- The cache-hit test of `_export_model`:
`self._onnx_models.exported_model and schema == self._input_info.schema and
not self._original_model_has_changed`. -/
def cache_hit (s : ManagerState) (schema : Nat) : Bool :=
  s.exported_model.isSome && (s.input_info_schema == some schema)
    && !s.original_model_has_changed

/-- `_export_model`: snapshot the random states; return `False` on a cache
hit; otherwise resolve the device, export (storing the new model wholesale),
restore the snapshot and return `True`. On the raising paths the snapshot is
*not* restored, mirroring the absence of a `try/finally` in the source. -/
def export_model (env : ExportEnv) (schema : Nat) (s : ManagerState) :
    Except (OrtError × ManagerState) (Bool × ManagerState) :=
  let random_states := s.rng
  if cache_hit s schema then
    .ok (false, s)
  else
    match set_device_from_module env s with
    | .error e => .error e
    | .ok s1 =>
      match get_exported_model env schema s1 with
      | .error e => .error e
      | .ok (m, s2) =>
        .ok (true, { s2 with exported_model := some m, rng := random_states })

/-- `signal_model_changed`: sets `self._original_model_has_changed`. -/
def signal_model_changed (s : ManagerState) : ManagerState :=
  { s with original_model_has_changed := true }

/-- `_set_device_from_module` touches only the `device` field of the state
when it succeeds. -/
theorem set_device_ok_frame (env : ExportEnv) (s s1 : ManagerState)
    (h : set_device_from_module env s = .ok s1) :
    s1.exported_model = s.exported_model ∧
    s1.input_info_schema = s.input_info_schema ∧
    s1.original_model_has_changed = s.original_model_has_changed ∧
    s1.rng = s.rng := by
  unfold set_device_from_module at h
  dsimp only at h
  split at h
  · split at h
    · cases h
    · cases h
      exact ⟨rfl, rfl, rfl, rfl⟩
  · cases h
    exact ⟨rfl, rfl, rfl, rfl⟩

/-- A successful `_export_model` that returns `True` leaves the state with
the new model cached, the call's schema recorded, the change signal and the
random state exactly as they were on entry. -/
theorem export_model_true_shape (env : ExportEnv) (schema : Nat)
    (s s' : ManagerState) (h : export_model env schema s = .ok (true, s')) :
    s'.exported_model = some env.exported ∧
    s'.input_info_schema = some schema ∧
    s'.original_model_has_changed = s.original_model_has_changed ∧
    s'.rng = s.rng := by
  unfold export_model at h
  dsimp only at h
  split at h
  · cases h
  · cases hd : set_device_from_module env s with
    | error e => rw [hd] at h; cases h
    | ok s1 =>
      rw [hd] at h
      have hframe := set_device_ok_frame env s s1 hd
      unfold get_exported_model at h
      dsimp only at h
      by_cases hexp : env.exporter_ok = true
      · rw [if_pos hexp] at h
        dsimp only at h
        cases h
        exact ⟨rfl, rfl, hframe.2.2.1, rfl⟩
      · rw [if_neg hexp] at h
        dsimp only at h
        cases h

/-! ## Concrete fixtures for the export-cache claims -/

/-- A CPU device. -/
def devCpu : Device := ⟨DeviceType.cpu, 0⟩

/-- A manager holding a cached export (model `7`) for schema `1`, change
signal unset, device resolved, random state `0`. -/
def sPre : ManagerState := ⟨some 7, some 1, false, some devCpu, 0⟩

/-- An environment whose exporter raises with diagnostic `"boom"` after
perturbing the random state. -/
def envFail : ExportEnv := ⟨some devCpu, none, false, "boom", 0, fun r => r + 1⟩

/-- The state `_export_model envFail 2 sPre` leaves behind when the exporter
raises: the old model is still cached, but the stored schema is the failing
call's schema `2` and the random state is the perturbed `1`. -/
def sPostFail : ManagerState := ⟨some 7, some 2, false, some devCpu, 1⟩

/-- An environment whose exporter succeeds with model `8`, also perturbing the
random state. -/
def envOk : ExportEnv := ⟨some devCpu, none, true, "", 8, fun r => r + 1⟩

/-- An environment in which neither the module nor the inputs determine a
device. -/
def envNoDevice : ExportEnv := ⟨none, none, true, "", 9, fun r => r + 1⟩

/-- A manager holding a cached export (model `5`) for schema `3`. -/
def sCached : ManagerState := ⟨some 5, some 3, false, some devCpu, 0⟩

/-- The state after `signal_model_changed` followed by a successful
`_export_model` with schema `3` under `envOk`: the change signal is *still*
set. -/
def sStillChanged : ManagerState := ⟨some 8, some 3, true, some devCpu, 0⟩

/-- The state after a successful `_export_model` with schema `2` on `sPre`
under `envOk`. -/
def sPost : ManagerState := ⟨some 8, some 2, false, some devCpu, 0⟩

/-! ## C2 — export failure and the schema store -/

/-- C2 (counterexample): starting from a cache for schema `1`, a failing
export with schema `2` surfaces the wrapped error and keeps the old model,
but the stored schema is updated to the *failing* call's schema `2` (not the
pre-failure `1`), so the immediately following call with schema `2` — a schema
that differs from the pre-failure schema — is *not* re-exported, contradicting
the claim that `needs_export` still evaluates against the pre-failure schema. -/
theorem export_failure_schema_store_counterexample :
    export_model envFail 2 sPre =
      .error (.exportError (export_error_head ++ "boom"), sPostFail) ∧
    sPre.input_info_schema = some 1 ∧
    sPostFail.input_info_schema = some 2 ∧
    sPostFail.exported_model = sPre.exported_model ∧
    export_model envOk 2 sPostFail = .ok (false, sPostFail) :=
  ⟨rfl, rfl, rfl, rfl, rfl⟩

/-- C2 (amended): if the exporter raises on a cache-miss call, the exception
surfaces as a single model-export error carrying the original diagnostic text
and the previously cached exported model is unchanged; however the stored
schema has already been updated to the *failing call's* schema (the input info
is rebuilt before the exporter runs), so the subsequent needs-export decision
evaluates against the failed call's schema rather than the pre-failure one. -/
theorem export_failure_amended (env : ExportEnv) (s s1 : ManagerState) (schema : Nat)
    (hmiss : cache_hit s schema = false)
    (hdev : set_device_from_module env s = .ok s1)
    (hfail : env.exporter_ok = false) :
    export_model env schema s =
      .error (.exportError (export_error_head ++ env.exporter_error_msg),
        { s1 with input_info_schema := some schema, rng := env.rng_perturb s1.rng }) ∧
    ({ s1 with input_info_schema := some schema, rng := env.rng_perturb s1.rng } : ManagerState).exported_model = s.exported_model := by
  have hframe := set_device_ok_frame env s s1 hdev
  constructor
  · unfold export_model
    dsimp only
    rw [if_neg (by simp [hmiss]), hdev]
    unfold get_exported_model parse_inputs_for_onnx_export
    dsimp only
    rw [if_neg (by simp [hfail])]
  · exact hframe.1

/-- Witness for C2's amended theorem at the concrete fixture. -/
theorem export_failure_amended_witness :
    export_model envFail 2 sPre =
      .error (.exportError (export_error_head ++ envFail.exporter_error_msg),
        { sPre with input_info_schema := some 2, rng := envFail.rng_perturb sPre.rng }) ∧
    ({ sPre with input_info_schema := some 2, rng := envFail.rng_perturb sPre.rng } : ManagerState).exported_model =
      sPre.exported_model :=
  export_failure_amended envFail sPre sPre 2 rfl rfl rfl

/-! ## C3 — the change signal forces export but is never reset -/

/-- C3 (counterexample): after `signal_model_changed`, a call with the cached
schema `3` re-exports (returns `true`) as the claim states, but the change
signal is still set afterwards, so the immediately following call with the
same schema re-exports *again* (returns `true`), contradicting the claimed
reset. -/
theorem change_signal_not_reset_counterexample :
    export_model envOk 3 (signal_model_changed sCached) = .ok (true, sStillChanged) ∧
    sStillChanged.original_model_has_changed = true ∧
    export_model envOk 3 sStillChanged = .ok (true, sStillChanged) :=
  ⟨rfl, rfl, rfl⟩

/-- C3 (amended): setting the change signal before a call makes every
successfully returning `_export_model` call perform the export (return `true`)
despite schema equality; the signal is *not* reset by the export, so it is
still set in the resulting state (and same-schema calls keep re-exporting
until the flag is cleared by some external means). -/
theorem change_signal_forces_export (env : ExportEnv) (s s' : ManagerState)
    (schema : Nat) (b : Bool)
    (h : export_model env schema (signal_model_changed s) = .ok (b, s')) :
    b = true ∧ s'.original_model_has_changed = true := by
  unfold export_model at h
  dsimp only at h
  rw [if_neg (by simp [cache_hit, signal_model_changed])] at h
  cases hd : set_device_from_module env (signal_model_changed s) with
  | error e => rw [hd] at h; cases h
  | ok s1 =>
    rw [hd] at h
    have hframe := set_device_ok_frame env (signal_model_changed s) s1 hd
    unfold get_exported_model at h
    dsimp only at h
    by_cases hexp : env.exporter_ok = true
    · rw [if_pos hexp] at h
      dsimp only at h
      cases h
      exact ⟨rfl, hframe.2.2.1⟩
    · rw [if_neg hexp] at h
      dsimp only at h
      cases h

/-- Witness for C3's amended theorem at the concrete fixture. -/
theorem change_signal_forces_export_witness :
    true = true ∧ sStillChanged.original_model_has_changed = true :=
  change_signal_forces_export envOk sCached sStillChanged 3 true rfl

/-! ## C4 — random-state snapshot and restore -/

/-- C4 (counterexample): when the exporter raises, `_export_model` propagates
the exception without restoring the recorded random states — the caller
observes the perturbed random state `1` instead of the entry state `0`. -/
theorem random_state_not_restored_counterexample :
    export_model envFail 2 sPre =
      .error (.exportError (export_error_head ++ "boom"), sPostFail) ∧
    sPre.rng = 0 ∧ sPostFail.rng = 1 ∧ sPostFail.rng ≠ sPre.rng :=
  ⟨rfl, rfl, rfl, by decide⟩

/-- C4 (amended): the random state is snapshotted on entry and restored on
every *returning* path of `_export_model` (both the cache-hit path and a
successful export), but there is no `try/finally`: on the raising paths the
perturbed random state is left behind, so restoration is not unconditional. -/
theorem random_state_restored_on_return (env : ExportEnv) (schema : Nat)
    (s s' : ManagerState) (b : Bool)
    (h : export_model env schema s = .ok (b, s')) :
    s'.rng = s.rng := by
  unfold export_model at h
  dsimp only at h
  split at h
  · cases h; rfl
  · cases hd : set_device_from_module env s with
    | error e => rw [hd] at h; cases h
    | ok s1 =>
      rw [hd] at h
      unfold get_exported_model at h
      dsimp only at h
      by_cases hexp : env.exporter_ok = true
      · rw [if_pos hexp] at h
        dsimp only at h
        cases h
        rfl
      · rw [if_neg hexp] at h
        dsimp only at h
        cases h

/-- Witness for C4's amended theorem: a successful export restores the
entry random state. -/
theorem random_state_restored_on_return_witness : sPost.rng = sPre.rng :=
  random_state_restored_on_return envOk 2 sPre sPost true rfl

/-! ## C5 — cache-hit idempotence after a successful export -/

/-- C5: after a `_export_model` call that returns `true` leaves a state whose
change signal is unset, an immediately subsequent call with the structurally
identical schema returns `false` and leaves the state untouched, whatever the
second call's environment is — the export decision stays `false` for the same
(schema, no-change-signal) pair. -/
theorem export_success_then_no_reexport (env env2 : ExportEnv) (schema : Nat)
    (s s' : ManagerState)
    (h : export_model env schema s = .ok (true, s'))
    (hsig : s'.original_model_has_changed = false) :
    export_model env2 schema s' = .ok (false, s') := by
  have hshape := export_model_true_shape env schema s s' h
  have hhit : cache_hit s' schema = true := by
    simp [cache_hit, hshape.1, hshape.2.1, hsig]
  simp [export_model, hhit]

/-- Witness for C5 at the concrete fixture: the second call does not
re-export even under an environment whose exporter would fail. -/
theorem export_success_then_no_reexport_witness :
    export_model envFail 2 sPost = .ok (false, sPost) :=
  export_success_then_no_reexport envOk envFail 2 sPre sPost rfl rfl

/-! ## C9 — device resolution and the export attempt -/

/-- C9 (counterexample): on a cache-hit call no device resolution happens at
all — with no device determinable from module or inputs, `_export_model`
returns `False` and raises nothing, contradicting the claim that every call
without a determinable device raises a device-resolution error. -/
theorem device_unresolvable_no_error_counterexample :
    get_device envNoDevice = none ∧
    export_model envNoDevice 1 sPre = .ok (false, sPre) :=
  ⟨rfl, rfl⟩

/-- C9 (amended): on every cache-miss call in which no device can be
determined from either the module or the inputs, `_export_model` raises the
device-resolution error before any export attempt: the result is the device
error — independent of the exporter's behaviour — and the cached exported
model and stored schema are untouched. -/
theorem device_error_before_export (env : ExportEnv) (schema : Nat) (s : ManagerState)
    (hmiss : cache_hit s schema = false)
    (hdev : get_device env = none) :
    export_model env schema s = .error (.deviceError, { s with device := none }) ∧
    ({ s with device := none } : ManagerState).exported_model = s.exported_model ∧
    ({ s with device := none } : ManagerState).input_info_schema = s.input_info_schema := by
  refine ⟨?_, rfl, rfl⟩
  unfold export_model
  dsimp only
  rw [if_neg (by simp [hmiss])]
  unfold set_device_from_module
  dsimp only
  rw [hdev]
  cases hsd : s.device with
  | none => simp [hsd]
  | some d => simp [hsd]

/-- Witness for C9's amended theorem at the concrete fixture. -/
theorem device_error_before_export_witness :
    export_model envNoDevice 2 sPre =
      .error (.deviceError, { sPre with device := none }) ∧
    ({ sPre with device := none } : ManagerState).exported_model = sPre.exported_model ∧
    ({ sPre with device := none } : ManagerState).input_info_schema =
      sPre.input_info_schema :=
  device_error_before_export envNoDevice 2 sPre rfl rfl

/-! ## `_initialize_graph_builder` — the graph-builder configuration -/

/-- `torch.onnx.TrainingMode` values relevant to the manager. -/
inductive TrainingMode
  | TRAINING
  | EVAL
deriving DecidableEq

/-- The fields of `C.OrtModuleGraphBuilderConfiguration` populated by
`_initialize_graph_builder` that the claims are about. -/
structure OrtModuleGraphBuilderConfiguration where
  initializer_names : List String
  initializer_names_to_train : List String
  build_gradient_graph : Bool
  enable_caching : Bool
deriving DecidableEq

/-- `[name for name, _ in named_parameters() if name in onnx_initializer_names]`
where `onnx_initializer_names` is the name set of the exported model's graph
inputs. A parameter is a `(name, requires_grad)` pair. -/
def initializer_names (params : List (String × Bool)) (onnx_inputs : List String) :
    List String :=
  ((params.filter fun p => onnx_inputs.contains p.1).map Prod.fst)

/-- `[name for name, param in named_parameters() if param.requires_grad and
name in onnx_initializer_names]`. -/
def initializer_names_to_train (params : List (String × Bool))
    (onnx_inputs : List String) : List String :=
  ((params.filter fun p => p.2 && onnx_inputs.contains p.1).map Prod.fst)

/-- `_initialize_graph_builder`: build the `OrtModuleGraphBuilderConfiguration`
handed to `C.OrtModuleGraphBuilder.initialize`. `onnx_inputs` are the declared
inputs of the exported model (`exported_model.graph.input`, which include the
initializers because export uses `keep_initializers_as_inputs=True`). -/
def initialize_graph_builder (params : List (String × Bool))
    (onnx_inputs : List String) (export_mode : TrainingMode)
    (enable_grad_acc_optimization : Bool) : OrtModuleGraphBuilderConfiguration :=
  { initializer_names := initializer_names params onnx_inputs
    initializer_names_to_train := initializer_names_to_train params onnx_inputs
    build_gradient_graph := export_mode == TrainingMode.TRAINING
    enable_caching := enable_grad_acc_optimization }

theorem contains_iff_mem (l : List String) (a : String) :
    l.contains a = true ↔ a ∈ l := by
  simp [List.contains, List.elem_eq_mem]

theorem mem_initializer_names (params : List (String × Bool))
    (onnx_inputs : List String) (n : String) :
    n ∈ initializer_names params onnx_inputs ↔
      (∃ g, (n, g) ∈ params) ∧ n ∈ onnx_inputs := by
  unfold initializer_names
  simp only [List.mem_map, List.mem_filter]
  constructor
  · rintro ⟨⟨m, g⟩, ⟨hmem, hc⟩, rfl⟩
    exact ⟨⟨g, hmem⟩, (contains_iff_mem onnx_inputs m).mp hc⟩
  · rintro ⟨⟨g, hmem⟩, hin⟩
    exact ⟨(n, g), ⟨hmem, (contains_iff_mem onnx_inputs n).mpr hin⟩, rfl⟩

theorem mem_initializer_names_to_train (params : List (String × Bool))
    (onnx_inputs : List String) (n : String) :
    n ∈ initializer_names_to_train params onnx_inputs ↔
      (n, true) ∈ params ∧ n ∈ onnx_inputs := by
  unfold initializer_names_to_train
  simp only [List.mem_map, List.mem_filter, Bool.and_eq_true]
  constructor
  · rintro ⟨⟨m, g⟩, ⟨hmem, hg, hc⟩, rfl⟩
    cases g
    · cases hg
    · exact ⟨hmem, (contains_iff_mem onnx_inputs m).mp hc⟩
  · rintro ⟨hmem, hin⟩
    exact ⟨(n, true), ⟨hmem, rfl, (contains_iff_mem onnx_inputs n).mpr hin⟩, rfl⟩

/-- C6: the graph-builder configuration contains exactly the parameter names
declared as inputs of the exported model; its trainable subset is exactly the
intersection of the requires-grad parameters with the exported model's declared
inputs (parameters absent from the export are silently excluded — the
construction is total, no error path); and the build-gradient-graph flag is
true exactly when the export mode is training mode. -/
theorem graph_builder_config_spec (params : List (String × Bool))
    (onnx_inputs : List String) (mode : TrainingMode) (acc : Bool) :
    (∀ n, n ∈ (initialize_graph_builder params onnx_inputs mode acc).initializer_names ↔
      (∃ g, (n, g) ∈ params) ∧ n ∈ onnx_inputs) ∧
    (∀ n, n ∈ (initialize_graph_builder params onnx_inputs mode acc).initializer_names_to_train ↔
      (n, true) ∈ params ∧ n ∈ onnx_inputs) ∧
    (∀ n, n ∉ onnx_inputs →
      n ∉ (initialize_graph_builder params onnx_inputs mode acc).initializer_names_to_train) ∧
    ((initialize_graph_builder params onnx_inputs mode acc).build_gradient_graph = true ↔
      mode = TrainingMode.TRAINING) := by
  refine ⟨fun n => mem_initializer_names params onnx_inputs n,
    fun n => mem_initializer_names_to_train params onnx_inputs n,
    fun n hn hmem => hn ((mem_initializer_names_to_train params onnx_inputs n).mp hmem).2,
    ?_⟩
  unfold initialize_graph_builder
  cases mode <;> simp

/-- Witness for C6 at a concrete parameter list: `w` is trainable and
exported, `b` is exported but frozen, `absent` is trainable but missing from
the exported inputs and is silently dropped. -/
theorem graph_builder_config_spec_witness :
    (∀ n, n ∈ (initialize_graph_builder [("w", true), ("b", false), ("absent", true)]
        ["w", "b", "x"] TrainingMode.TRAINING false).initializer_names ↔
      (∃ g, (n, g) ∈ [("w", true), ("b", false), ("absent", true)]) ∧ n ∈ ["w", "b", "x"]) ∧
    (∀ n, n ∈ (initialize_graph_builder [("w", true), ("b", false), ("absent", true)]
        ["w", "b", "x"] TrainingMode.TRAINING false).initializer_names_to_train ↔
      (n, true) ∈ [("w", true), ("b", false), ("absent", true)] ∧ n ∈ ["w", "b", "x"]) ∧
    (∀ n, n ∉ ["w", "b", "x"] →
      n ∉ (initialize_graph_builder [("w", true), ("b", false), ("absent", true)]
        ["w", "b", "x"] TrainingMode.TRAINING false).initializer_names_to_train) ∧
    ((initialize_graph_builder [("w", true), ("b", false), ("absent", true)]
        ["w", "b", "x"] TrainingMode.TRAINING false).build_gradient_graph = true ↔
      TrainingMode.TRAINING = TrainingMode.TRAINING) :=
  graph_builder_config_spec [("w", true), ("b", false), ("absent", true)]
    ["w", "b", "x"] TrainingMode.TRAINING false

/-! ## `_get_session_config` — the execution-provider list -/

/-- The provider list built by `_get_session_config`, by device type:
CUDA devices get the CUDA (or ROCM, under ROCm PyTorch) provider followed by
the CPU provider; CPU devices get only the CPU provider; `ort` devices get the
single provider reported by `C.get_ort_device_provider_info` for the device
index (the source asserts exactly one key); any other device type leaves the
provider list `None`. -/
def get_providers (device : Device) (is_rocm_pytorch : Bool) (ort_provider : String) :
    Option (List String) :=
  match device.type with
  | DeviceType.cuda =>
    some [if is_rocm_pytorch then "ROCMExecutionProvider" else "CUDAExecutionProvider",
      "CPUExecutionProvider"]
  | DeviceType.cpu => some ["CPUExecutionProvider"]
  | DeviceType.ort => some [ort_provider]
  | DeviceType.other => none

/-- C7 (counterexample): for an `ort`-type device whose runtime-reported
provider is not the CPU provider, the provider list is just that provider —
the general-purpose CPU provider is not appended as a fallback, contradicting
the claim that the CPU provider comes last for every resolved device. -/
theorem providers_ort_no_cpu_fallback_counterexample :
    get_providers ⟨DeviceType.ort, 0⟩ false "OpenVINOExecutionProvider" =
      some ["OpenVINOExecutionProvider"] ∧
    "CPUExecutionProvider" ∉ ["OpenVINOExecutionProvider"] :=
  ⟨rfl, by decide⟩

/-- C7 (amended): for CUDA devices the accelerator-specific provider (CUDA,
or ROCM under ROCm PyTorch) comes first and the CPU provider last as
fallback; for CPU devices the list is exactly the CPU provider; for `ort`
devices the list is exactly the single provider reported for that device,
with no CPU fallback appended; for any other device type no provider list is
constructed. -/
theorem providers_spec (idx : Nat) (rocm : Bool) (p : String) :
    (get_providers ⟨DeviceType.cuda, idx⟩ rocm p =
      some [if rocm then "ROCMExecutionProvider" else "CUDAExecutionProvider",
        "CPUExecutionProvider"] ∧
      (if rocm then "ROCMExecutionProvider" else "CUDAExecutionProvider") ≠
        "CPUExecutionProvider") ∧
    get_providers ⟨DeviceType.cpu, idx⟩ rocm p = some ["CPUExecutionProvider"] ∧
    get_providers ⟨DeviceType.ort, idx⟩ rocm p = some [p] ∧
    get_providers ⟨DeviceType.other, idx⟩ rocm p = none := by
  refine ⟨⟨rfl, ?_⟩, rfl, rfl, rfl⟩
  cases rocm <;> decide

/-- Witness for C7's amended theorem at a concrete device and provider. -/
theorem providers_spec_witness :
    (get_providers ⟨DeviceType.cuda, 0⟩ false "X" =
      some [if false then "ROCMExecutionProvider" else "CUDAExecutionProvider",
        "CPUExecutionProvider"] ∧
      (if false then "ROCMExecutionProvider" else "CUDAExecutionProvider") ≠
        "CPUExecutionProvider") ∧
    get_providers ⟨DeviceType.cpu, 0⟩ false "X" = some ["CPUExecutionProvider"] ∧
    get_providers ⟨DeviceType.ort, 0⟩ false "X" = some ["X"] ∧
    get_providers ⟨DeviceType.other, 0⟩ false "X" = none :=
  providers_spec 0 false "X"

/-! ## `_enable_conditional_optimizations` — sparsity-driven features -/

/-- The sparsity-related fields of `C.TrainingGraphTransformerConfiguration`:
`none` models a field never assigned. -/
structure TrainingGraphTransformerConfiguration where
  sparse_label_input_names : Option (List String)
  sparse_embedding_input_names : Option (List String)
deriving DecidableEq

/-- What one `_enable_conditional_optimizations` call did: the resulting
graph-transformer configuration, whether `enable_input_inspector` was invoked
during the call, and whether the input inspector is enabled once the call
returns. -/
structure CondOptResult where
  config : TrainingGraphTransformerConfiguration
  inspector_activated : Bool
  inspector_enabled_after : Bool
deriving DecidableEq

/-- `_enable_conditional_optimizations`: enable the input inspector when the
sparse optimizer or density printing is on; when the sparse optimizer is on,
inject the non-empty sparsity result sets into the transformer configuration;
finally, `if not self._print_input_density: disable_input_inspector()`.
`embed_sparsity_results` / `label_sparsity_results` are the result sets the
external profiler (`_io._combine_input_buffers_initializers`) would return,
and `inspector_on` is the inspector state on entry. -/
def enable_conditional_optimizations (enable_sparse_optimizer print_input_density : Bool)
    (embed_sparsity_results label_sparsity_results : List (String × Nat))
    (cfg : TrainingGraphTransformerConfiguration) (inspector_on : Bool) : CondOptResult :=
  if enable_sparse_optimizer || print_input_density then
    let cfg1 :=
      if enable_sparse_optimizer then
        let c :=
          if label_sparsity_results.length > 0 then
            { cfg with sparse_label_input_names := some (label_sparsity_results.map Prod.fst) }
          else cfg
        if embed_sparsity_results.length > 0 then
          { c with sparse_embedding_input_names := some (embed_sparsity_results.map Prod.fst) }
        else c
      else cfg
    { config := cfg1
      inspector_activated := true
      inspector_enabled_after := if !print_input_density then false else true }
  else
    { config := cfg, inspector_activated := false, inspector_enabled_after := inspector_on }

/-- A transformer configuration with no sparsity fields assigned. -/
def cfg0 : TrainingGraphTransformerConfiguration := ⟨none, none⟩

/-- C8 (counterexample): in diagnostics-only mode (print-density on, sparse
optimization off) the inspector is activated but *not* disabled after the
call — it remains enabled, contradicting the claim; the source disables it
only when `print_input_density` is off. -/
theorem diagnostics_only_inspector_stays_enabled_counterexample :
    (enable_conditional_optimizations false true [] [] cfg0 false).inspector_activated = true ∧
    (enable_conditional_optimizations false true [] [] cfg0 false).inspector_enabled_after = true :=
  ⟨rfl, rfl⟩

/-- C8 (amended): the inspector is activated during the call iff the
sparse-optimization flag or the print-input-density flag is on; each sparsity
result set is injected into the transformer configuration exactly when the
sparse-optimization flag is on and that set is non-empty; and after the call
the inspector is left enabled exactly when the print-input-density flag is on
(so it is disabled again in sparse-optimization-only mode, while in
diagnostics mode it stays enabled for per-call density printing). -/
theorem conditional_optimizations_spec (so pd : Bool)
    (embed label : List (String × Nat))
    (cfg : TrainingGraphTransformerConfiguration) (ins : Bool) :
    (enable_conditional_optimizations so pd embed label cfg ins).inspector_activated =
      (so || pd) ∧
    (enable_conditional_optimizations so pd embed label cfg ins).config.sparse_label_input_names =
      (if so && label.length > 0 then some (label.map Prod.fst)
        else cfg.sparse_label_input_names) ∧
    (enable_conditional_optimizations so pd embed label cfg ins).config.sparse_embedding_input_names =
      (if so && embed.length > 0 then some (embed.map Prod.fst)
        else cfg.sparse_embedding_input_names) ∧
    (enable_conditional_optimizations so pd embed label cfg ins).inspector_enabled_after =
      (if so || pd then pd else ins) := by
  cases so <;> cases pd <;>
    rcases label with _ | ⟨l, ls⟩ <;> rcases embed with _ | ⟨e, es⟩ <;>
      simp [enable_conditional_optimizations]

end OrtModule
